import Mathlib

/-!
# Verification of the CyberCell Redis cache layer

A shallow embedding of `src/api/src/config/redis.config.ts`: the cache key
namespace (`CACHE_KEYS`), the TTL tiers (`TTL`), the `CyberCellCache` facade
methods, the fixed-window rate limiter (`checkRateLimit`) and the HTTP
response-cache middleware (`cacheMiddleware`), modelled over an explicit
Redis-like store with per-key expiry and an up/down connectivity flag.

JavaScript/JSON values are modelled by `JVal` (numbers as rationals),
`JSON.stringify ∘ JSON.parse` normalisation by `jnorm`, JS truthiness by
`jtruthy`, and the store's string payloads by `RVal` (a serialized JSON
document, a raw non-JSON blob, or an integer counter written by `INCR`).
-/

set_option autoImplicit false

namespace CyberCell

/-- A JavaScript value as the cache layer sees it: JSON-representable data
plus `undefined` for JavaScript's `undefined` (produced by reading a missing
object property). Numbers are modelled as rationals. -/
inductive JVal where
  | str (s : String)
  | num (q : Rat)
  | bool (b : Bool)
  | null
  | undefined
  | arr (elems : List JVal)
  | obj (fields : List (String × JVal))
  deriving Repr

mutual

/-- Decidable equality for `JVal` (hand-written: the deriving handler does
not support this nested inductive). -/
def JVal.decEq : (a b : JVal) → Decidable (a = b)
  | .str a, .str b =>
    if h : a = b then isTrue (by rw [h])
    else isFalse (fun hh => by cases hh; exact h rfl)
  | .str _, .num _ => isFalse (fun h => JVal.noConfusion h)
  | .str _, .bool _ => isFalse (fun h => JVal.noConfusion h)
  | .str _, .null => isFalse (fun h => JVal.noConfusion h)
  | .str _, .undefined => isFalse (fun h => JVal.noConfusion h)
  | .str _, .arr _ => isFalse (fun h => JVal.noConfusion h)
  | .str _, .obj _ => isFalse (fun h => JVal.noConfusion h)
  | .num _, .str _ => isFalse (fun h => JVal.noConfusion h)
  | .num a, .num b =>
    if h : a = b then isTrue (by rw [h])
    else isFalse (fun hh => by cases hh; exact h rfl)
  | .num _, .bool _ => isFalse (fun h => JVal.noConfusion h)
  | .num _, .null => isFalse (fun h => JVal.noConfusion h)
  | .num _, .undefined => isFalse (fun h => JVal.noConfusion h)
  | .num _, .arr _ => isFalse (fun h => JVal.noConfusion h)
  | .num _, .obj _ => isFalse (fun h => JVal.noConfusion h)
  | .bool _, .str _ => isFalse (fun h => JVal.noConfusion h)
  | .bool _, .num _ => isFalse (fun h => JVal.noConfusion h)
  | .bool a, .bool b =>
    if h : a = b then isTrue (by rw [h])
    else isFalse (fun hh => by cases hh; exact h rfl)
  | .bool _, .null => isFalse (fun h => JVal.noConfusion h)
  | .bool _, .undefined => isFalse (fun h => JVal.noConfusion h)
  | .bool _, .arr _ => isFalse (fun h => JVal.noConfusion h)
  | .bool _, .obj _ => isFalse (fun h => JVal.noConfusion h)
  | .null, .str _ => isFalse (fun h => JVal.noConfusion h)
  | .null, .num _ => isFalse (fun h => JVal.noConfusion h)
  | .null, .bool _ => isFalse (fun h => JVal.noConfusion h)
  | .null, .null => isTrue rfl
  | .null, .undefined => isFalse (fun h => JVal.noConfusion h)
  | .null, .arr _ => isFalse (fun h => JVal.noConfusion h)
  | .null, .obj _ => isFalse (fun h => JVal.noConfusion h)
  | .undefined, .str _ => isFalse (fun h => JVal.noConfusion h)
  | .undefined, .num _ => isFalse (fun h => JVal.noConfusion h)
  | .undefined, .bool _ => isFalse (fun h => JVal.noConfusion h)
  | .undefined, .null => isFalse (fun h => JVal.noConfusion h)
  | .undefined, .undefined => isTrue rfl
  | .undefined, .arr _ => isFalse (fun h => JVal.noConfusion h)
  | .undefined, .obj _ => isFalse (fun h => JVal.noConfusion h)
  | .arr _, .str _ => isFalse (fun h => JVal.noConfusion h)
  | .arr _, .num _ => isFalse (fun h => JVal.noConfusion h)
  | .arr _, .bool _ => isFalse (fun h => JVal.noConfusion h)
  | .arr _, .null => isFalse (fun h => JVal.noConfusion h)
  | .arr _, .undefined => isFalse (fun h => JVal.noConfusion h)
  | .arr a, .arr b =>
    match JVal.decEqList a b with
    | isTrue h => isTrue (by rw [h])
    | isFalse h => isFalse (fun hh => by cases hh; exact h rfl)
  | .arr _, .obj _ => isFalse (fun h => JVal.noConfusion h)
  | .obj _, .str _ => isFalse (fun h => JVal.noConfusion h)
  | .obj _, .num _ => isFalse (fun h => JVal.noConfusion h)
  | .obj _, .bool _ => isFalse (fun h => JVal.noConfusion h)
  | .obj _, .null => isFalse (fun h => JVal.noConfusion h)
  | .obj _, .undefined => isFalse (fun h => JVal.noConfusion h)
  | .obj _, .arr _ => isFalse (fun h => JVal.noConfusion h)
  | .obj a, .obj b =>
    match JVal.decEqFields a b with
    | isTrue h => isTrue (by rw [h])
    | isFalse h => isFalse (fun hh => by cases hh; exact h rfl)

/-- Decidable equality for lists of `JVal`. -/
def JVal.decEqList : (a b : List JVal) → Decidable (a = b)
  | [], [] => isTrue rfl
  | [], _ :: _ => isFalse (fun h => List.noConfusion h)
  | _ :: _, [] => isFalse (fun h => List.noConfusion h)
  | x :: xs, y :: ys =>
    match JVal.decEq x y with
    | isFalse h => isFalse (fun hh => by cases hh; exact h rfl)
    | isTrue h1 =>
      match JVal.decEqList xs ys with
      | isTrue h2 => isTrue (by rw [h1, h2])
      | isFalse h2 => isFalse (fun hh => by cases hh; exact h2 rfl)

/-- Decidable equality for object field lists. -/
def JVal.decEqFields : (a b : List (String × JVal)) → Decidable (a = b)
  | [], [] => isTrue rfl
  | [], _ :: _ => isFalse (fun h => List.noConfusion h)
  | _ :: _, [] => isFalse (fun h => List.noConfusion h)
  | (k1, v1) :: xs, (k2, v2) :: ys =>
    if hk : k1 = k2 then
      match JVal.decEq v1 v2 with
      | isFalse h => isFalse (fun hh => by cases hh; exact h rfl)
      | isTrue hv =>
        match JVal.decEqFields xs ys with
        | isTrue ht => isTrue (by rw [hk, hv, ht])
        | isFalse h => isFalse (fun hh => by cases hh; exact h rfl)
    else isFalse (fun hh => by cases hh; exact hk rfl)

end

instance : DecidableEq JVal := JVal.decEq

/-- JavaScript property access `v.f`: looks the field up in an object,
yields `undefined` on a missing field or a non-object receiver.
(Access on `null`/`undefined` would throw in JS; the facade only reads
fields of caller-supplied objects, so that path is not exercised here.) -/
def JVal.getField (v : JVal) (f : String) : JVal :=
  match v with
  | .obj fields => (fields.lookup f).getD .undefined
  | _ => .undefined

/-- JavaScript truthiness: `false`, `0`, `""`, `null`, `undefined` are falsy;
every other value (including empty arrays and objects) is truthy. -/
def jtruthy : JVal → Bool
  | .str s => s ≠ ""
  | .num q => q ≠ 0
  | .bool b => b
  | .null => false
  | .undefined => false
  | .arr _ => true
  | .obj _ => true

/-- The JavaScript `a || b` idiom used for default filling. -/
def jsOr (a b : JVal) : JVal :=
  if jtruthy a then a else b

mutual

/-- The effect of `JSON.parse (JSON.stringify v)`: object fields whose value
is `undefined` are dropped, `undefined` array elements become `null`, and
every other value is preserved. -/
def jnorm : JVal → JVal
  | .str s => .str s
  | .num q => .num q
  | .bool b => .bool b
  | .null => .null
  | .undefined => .null
  | .arr elems => .arr (jnormArr elems)
  | .obj fields => .obj (jnormObj fields)

/-- `jnorm` on the elements of an array (`undefined` becomes `null`). -/
def jnormArr : List JVal → List JVal
  | [] => []
  | v :: rest => jnorm v :: jnormArr rest

/-- `jnorm` on the fields of an object (`undefined`-valued keys are dropped). -/
def jnormObj : List (String × JVal) → List (String × JVal)
  | [] => []
  | (k, v) :: rest =>
    if v = .undefined then jnormObj rest else (k, jnorm v) :: jnormObj rest

end

-- ============================================================================
-- CACHE_KEYS: the key namespace (redis.config.ts lines 41-90)
-- ============================================================================

/-- The closed set of cache key categories of `CACHE_KEYS`; the parameterized
categories carry the entity id string the source closures receive. -/
inductive CKey where
  | ACTIVE_ALERTS
  | CRITICAL_ALERTS
  | ALERT_DETAILS (id : String)
  | INCIDENTS
  | INCIDENT_DETAILS (id : String)
  | DASHBOARD_METRICS
  | ACTIVE_THREATS_COUNT
  | REVENUE_AT_RISK
  | NETWORK_HEALTH
  | SLA_STATUS
  | FRAUD_TIMELINE
  | FRAUD_STATS
  | SIMBOX_ALERTS
  | SIMSWAP_ALERTS
  | DDOS_ALERTS
  | ML_PREDICTIONS
  | MODEL_CONFIDENCE (alertId : String)
  | CORRELATION_RESULTS
  | INVESTIGATIONS
  | INVESTIGATION_DETAILS (id : String)
  | CORRELATION_ENGINE
  | NETWORK_TRAFFIC
  | TRAFFIC_BASELINE
  | NETWORK_ANOMALIES
  | SYSTEM_COMPONENTS
  | COMPONENT_STATUS (name : String)
  | SYSTEM_UPTIME
  | USER_SESSION (userId : String)
  | USER_PERMISSIONS (userId : String)
  | RATE_LIMIT (ip : String)
  | API_CALLS (endpoint : String)
  deriving DecidableEq, Repr

/-- The key strings produced by `CACHE_KEYS` (constants and template-literal
closures), verbatim from the source. -/
def CACHE_KEYS : CKey → String
  | .ACTIVE_ALERTS => "cybercell:alerts:active"
  | .CRITICAL_ALERTS => "cybercell:alerts:critical"
  | .ALERT_DETAILS id => "cybercell:alert:" ++ id
  | .INCIDENTS => "cybercell:incidents:all"
  | .INCIDENT_DETAILS id => "cybercell:incident:" ++ id
  | .DASHBOARD_METRICS => "cybercell:dashboard:metrics"
  | .ACTIVE_THREATS_COUNT => "cybercell:metrics:active_threats"
  | .REVENUE_AT_RISK => "cybercell:metrics:revenue_risk"
  | .NETWORK_HEALTH => "cybercell:metrics:network_health"
  | .SLA_STATUS => "cybercell:metrics:sla_status"
  | .FRAUD_TIMELINE => "cybercell:fraud:timeline"
  | .FRAUD_STATS => "cybercell:fraud:statistics"
  | .SIMBOX_ALERTS => "cybercell:fraud:simbox"
  | .SIMSWAP_ALERTS => "cybercell:fraud:simswap"
  | .DDOS_ALERTS => "cybercell:fraud:ddos"
  | .ML_PREDICTIONS => "cybercell:ml:predictions"
  | .MODEL_CONFIDENCE alertId => "cybercell:ml:confidence:" ++ alertId
  | .CORRELATION_RESULTS => "cybercell:correlations:active"
  | .INVESTIGATIONS => "cybercell:investigations:active"
  | .INVESTIGATION_DETAILS id => "cybercell:investigation:" ++ id
  | .CORRELATION_ENGINE => "cybercell:correlation:engine_status"
  | .NETWORK_TRAFFIC => "cybercell:network:traffic"
  | .TRAFFIC_BASELINE => "cybercell:network:baseline"
  | .NETWORK_ANOMALIES => "cybercell:network:anomalies"
  | .SYSTEM_COMPONENTS => "cybercell:system:components"
  | .COMPONENT_STATUS name => "cybercell:system:component:" ++ name
  | .SYSTEM_UPTIME => "cybercell:system:uptime"
  | .USER_SESSION userId => "cybercell:session:" ++ userId
  | .USER_PERMISSIONS userId => "cybercell:permissions:" ++ userId
  | .RATE_LIMIT ip => "cybercell:ratelimit:" ++ ip
  | .API_CALLS endpoint => "cybercell:api:calls:" ++ endpoint

-- ============================================================================
-- TTL tiers in seconds (redis.config.ts lines 96-106)
-- ============================================================================

namespace TTL

def REAL_TIME : Nat := 30
def DASHBOARD : Nat := 60
def ALERTS : Nat := 300
def INVESTIGATIONS : Nat := 600
def SYSTEM_STATS : Nat := 300
def ML_PREDICTIONS : Nat := 180
def NETWORK_DATA : Nat := 60
def SESSION : Nat := 3600
def RATE_LIMIT : Nat := 60

end TTL

-- ============================================================================
-- The Redis store model
-- ============================================================================

/-- A string payload stored under a Redis key, classified by provenance:
`json v` is `JSON.stringify` output represented by the value it parses back
to, `num n` is the decimal integer string an `INCR` counter holds, and
`raw s` is any other (non-JSON) blob. -/
inductive RVal where
  | json (v : JVal)
  | num (n : Int)
  | raw (s : String)
  deriving DecidableEq, Repr

/-- A stored entry: its payload and an optional absolute expiry instant
(`none` means no TTL is attached, as for a key freshly created by `INCR`). -/
structure REntry where
  val : RVal
  expiry : Option Nat
  deriving DecidableEq, Repr

/-- The Redis backend: an association list of live-or-expired entries plus a
connectivity flag (`up = false` models timeout / connection failure, where
every awaited command rejects its promise). -/
structure Store where
  entries : List (String × REntry)
  up : Bool
  deriving DecidableEq, Repr

/-- Errors a facade call can surface: a rejected backend command, or a
`JSON.parse` exception on a malformed payload. -/
inductive RErr where
  | backendDown
  | parseError
  deriving DecidableEq, Repr

/-- Truthiness of the string `redis.get` returned: only the empty string is
falsy; counters and serialized JSON documents are non-empty strings. -/
def RVal.truthy : RVal → Bool
  | .json _ => true
  | .num _ => true
  | .raw s => s ≠ ""

/-- `JSON.parse` on a stored payload: serialized JSON yields its value, an
integer counter string parses as a number, and a raw non-JSON blob throws. -/
def RVal.parse : RVal → Except RErr JVal
  | .json v => .ok v
  | .num n => .ok (.num n)
  | .raw _ => .error .parseError

/-- `JSON.stringify` at a facade write: the stored blob is identified with
the value it parses back to (`jnorm` is the stringify/parse normalisation). -/
def stringifyRV (v : JVal) : RVal := .json (jnorm v)

/-- The entry under key `k` if it exists and has not expired (Redis deletes
expired keys lazily, so reads treat them as absent). -/
def lookupLive (entries : List (String × REntry)) (now : Nat) (k : String) :
    Option RVal :=
  match entries.lookup k with
  | some e =>
    match e.expiry with
    | none => some e.val
    | some t => if now < t then some e.val else none
  | none => none

/-- Replace (or create) the entry under `k`. -/
def setEntry (entries : List (String × REntry)) (k : String) (e : REntry) :
    List (String × REntry) :=
  (k, e) :: entries.filter (fun p => p.1 != k)

/-- `redis.get(key)`: absent on a miss or an expired key; the awaited promise
rejects when the backend is unreachable. -/
def rget (s : Store) (now : Nat) (k : String) : Except RErr (Option RVal) :=
  if s.up then .ok (lookupLive s.entries now k) else .error .backendDown

/-- `redis.setex(key, ttl, v)`: stores `v` with expiry `now + ttl`; the
awaited promise rejects when the backend is unreachable. -/
def rsetex (s : Store) (now : Nat) (k : String) (ttl : Nat) (v : RVal) :
    Except RErr Store :=
  if s.up then
    .ok { s with entries := setEntry s.entries k ⟨v, some (now + ttl)⟩ }
  else .error .backendDown

/-- `redis.multi().incr(key).expire(key, ttl).exec()`:
`INCR` creates a missing (or expired) key as `1` with no TTL, adds one to an
integer counter keeping its current TTL, and raises a per-command error (which
`exec` reports but the caller ignores) on a non-integer payload, leaving it
unchanged; `EXPIRE` then (re)sets the expiry of the key, which exists in every
branch. -/
def multiIncrExpire (s : Store) (now : Nat) (k : String) (ttl : Nat) :
    Except RErr Store :=
  if s.up then
    let entries1 :=
      match lookupLive s.entries now k with
      | none => setEntry s.entries k ⟨.num 1, none⟩
      | some (.num n) =>
        match s.entries.lookup k with
        | some e => setEntry s.entries k ⟨.num (n + 1), e.expiry⟩
        | none => setEntry s.entries k ⟨.num (n + 1), none⟩
      | some _ => s.entries
    let entries2 :=
      match entries1.lookup k with
      | some e => setEntry entries1 k ⟨e.val, some (now + ttl)⟩
      | none => entries1
    .ok { s with entries := entries2 }
  else .error .backendDown

/-- The empty, reachable store (a fresh backend). -/
def emptyUp : Store := { entries := [], up := true }

/-- An unreachable backend (every command times out / rejects). -/
def downStore : Store := { entries := [], up := false }

-- ============================================================================
-- CyberCellCache facade methods (redis.config.ts lines 112-362)
-- ============================================================================

/-- `new Date().toISOString()`, rendered injectively from the model clock. -/
def isoTime (now : Nat) : String := toString now

/-- The `data` object `cacheDashboardMetrics` builds (lines 116-122): each
metric field defaulted through `||` to the fixed demo value, plus a
`lastUpdated` timestamp. -/
def dashboardData (metrics : JVal) (now : Nat) : JVal :=
  .obj [("activeThreats", jsOr (metrics.getField "activeThreats") (.num 23)),
        ("revenueAtRisk", jsOr (metrics.getField "revenueAtRisk") (.num 127450)),
        ("networkHealth", jsOr (metrics.getField "networkHealth") (.num 94.2)),
        ("slaStatus", jsOr (metrics.getField "slaStatus") (.num 99.1)),
        ("lastUpdated", .str (isoTime now))]

/-- `cacheDashboardMetrics` (lines 115-131): stores the composite object and
the four individual metrics, all with the dashboard TTL. (ioredis stringifies
each raw argument; the individual metric writes are modelled by the same
serialized rendering.) -/
def cacheDashboardMetrics (metrics : JVal) (s : Store) (now : Nat) :
    Except RErr Store :=
  match rsetex s now (CACHE_KEYS .DASHBOARD_METRICS) TTL.DASHBOARD
      (stringifyRV (dashboardData metrics now)) with
  | .error e => .error e
  | .ok s =>
    match rsetex s now (CACHE_KEYS .ACTIVE_THREATS_COUNT) TTL.DASHBOARD
        (stringifyRV (jsOr (metrics.getField "activeThreats") (.num 23))) with
    | .error e => .error e
    | .ok s =>
      match rsetex s now (CACHE_KEYS .REVENUE_AT_RISK) TTL.DASHBOARD
          (stringifyRV (jsOr (metrics.getField "revenueAtRisk") (.num 127450))) with
      | .error e => .error e
      | .ok s =>
        match rsetex s now (CACHE_KEYS .NETWORK_HEALTH) TTL.DASHBOARD
            (stringifyRV (jsOr (metrics.getField "networkHealth") (.num 94.2))) with
        | .error e => .error e
        | .ok s =>
          rsetex s now (CACHE_KEYS .SLA_STATUS) TTL.DASHBOARD
            (stringifyRV (jsOr (metrics.getField "slaStatus") (.num 99.1)))

/-- `getDashboardMetrics` (lines 133-136): `cached ? JSON.parse(cached) : null`. -/
def getDashboardMetrics (s : Store) (now : Nat) : Except RErr (Option JVal) :=
  match rget s now (CACHE_KEYS .DASHBOARD_METRICS) with
  | .error e => .error e
  | .ok (some v) =>
    if v.truthy then
      match v.parse with
      | .error e => .error e
      | .ok j => .ok (some j)
    else .ok none
  | .ok none => .ok none

/-- The per-alert shape transform of `cacheActiveAlerts` (lines 140-150). -/
def alertTransform (alert : JVal) : JVal :=
  .obj [("id", alert.getField "id"),
        ("alertNumber", alert.getField "alert_number"),
        ("type", alert.getField "alert_type"),
        ("severity", alert.getField "severity"),
        ("confidence", alert.getField "confidence_score"),
        ("status", alert.getField "status"),
        ("location", alert.getField "location"),
        ("assignedTo", alert.getField "assigned_to"),
        ("detectionTime", alert.getField "detection_time")]

/-- `alert.severity === 'critical'`: strict equality against a string literal
holds exactly when the field is that string. -/
def isCriticalAlert (alert : JVal) : Bool :=
  match alert.getField "severity" with
  | .str sev => sev == "critical"
  | _ => false

/-- `cacheActiveAlerts` (lines 139-157): stores the transformed list under the
active-alerts key with the alerts TTL, then the `severity === 'critical'`
subset under the critical-alerts key with the real-time TTL. -/
def cacheActiveAlerts (alerts : List JVal) (s : Store) (now : Nat) :
    Except RErr Store :=
  let alertsData := alerts.map alertTransform
  match rsetex s now (CACHE_KEYS .ACTIVE_ALERTS) TTL.ALERTS
      (stringifyRV (.arr alertsData)) with
  | .error e => .error e
  | .ok s =>
    let criticalAlerts := alertsData.filter isCriticalAlert
    rsetex s now (CACHE_KEYS .CRITICAL_ALERTS) TTL.REAL_TIME
      (stringifyRV (.arr criticalAlerts))

/-- `getActiveAlerts` (lines 159-162): `cached ? JSON.parse(cached) : []`. -/
def getActiveAlerts (s : Store) (now : Nat) : Except RErr JVal :=
  match rget s now (CACHE_KEYS .ACTIVE_ALERTS) with
  | .error e => .error e
  | .ok (some v) => if v.truthy then v.parse else .ok (.arr [])
  | .ok none => .ok (.arr [])

/-- `getCriticalAlerts` (lines 164-167): `cached ? JSON.parse(cached) : []`. -/
def getCriticalAlerts (s : Store) (now : Nat) : Except RErr JVal :=
  match rget s now (CACHE_KEYS .CRITICAL_ALERTS) with
  | .error e => .error e
  | .ok (some v) => if v.truthy then v.parse else .ok (.arr [])
  | .ok none => .ok (.arr [])

/-- `parseInt(current) >= limit` on the string `redis.get` returned: an
integer counter compares directly; the flows modelled here never store any
other payload under a rate-limit key (a non-numeric string would give `NaN`,
whose comparison is `false`, which the catch-all also returns). -/
def parseIntGE (v : RVal) (limit : Int) : Bool :=
  match v with
  | .num n => limit ≤ n
  | _ => false

/-- `checkRateLimit` (lines 314-328): read the counter; if it is truthy and
`parseInt(current) >= limit`, report not-allowed without touching the store;
otherwise run the `incr`+`expire` transaction and report allowed. The source
defaults `limit` to 1000. -/
def checkRateLimit (ip : String) (limit : Int) (s : Store) (now : Nat) :
    Except RErr (Bool × Store) :=
  let key := CACHE_KEYS (.RATE_LIMIT ip)
  match rget s now key with
  | .error e => .error e
  | .ok (some v) =>
    if v.truthy && parseIntGE v limit then
      .ok (false, s)
    else
      match multiIncrExpire s now key TTL.RATE_LIMIT with
      | .error e => .error e
      | .ok s2 => .ok (true, s2)
  | .ok none =>
    match multiIncrExpire s now key TTL.RATE_LIMIT with
    | .error e => .error e
    | .ok s2 => .ok (true, s2)

-- ============================================================================
-- cacheMiddleware (redis.config.ts lines 371-396)
-- ============================================================================

/-- An HTTP request as the middleware sees it: the method and the full
original URL. -/
structure Req where
  method : String
  originalUrl : String
  deriving DecidableEq, Repr

/-- The middleware's cache key (line 373). -/
def mwKey (r : Req) : String :=
  "cybercell:http:" ++ r.method ++ ":" ++ r.originalUrl

/-- The outcome of running the middleware on one request: the body sent to
the client, the store afterwards, and how many times the downstream handler
ran. -/
structure MWResult where
  body : JVal
  store : Store
  handlerCalls : Nat
  deriving Repr

/-- `cacheMiddleware(ttl)` (lines 371-396; `ttl` defaults to `TTL.DASHBOARD`
in the source). On a truthy cached payload it responds with the parsed body
and never calls the handler; on a miss (or a falsy cached payload) it calls
`next()`, and the overridden `res.json` stores the handler's body under the
key with the configured TTL (fire-and-forget) before forwarding it unchanged.
A rejected `redis.get`, or a `JSON.parse` throw on a hit, lands in the
`catch`, which just calls `next()`: the handler runs with `res.json`
untouched, so nothing is cached. -/
def cacheMiddleware (ttl : Nat) (handler : Req → JVal) (r : Req) (s : Store)
    (now : Nat) : MWResult :=
  let key := mwKey r
  match rget s now key with
  | .error _ => { body := handler r, store := s, handlerCalls := 1 }
  | .ok cached =>
    match cached with
    | some v =>
      if v.truthy then
        match v.parse with
        | .ok body => { body := body, store := s, handlerCalls := 0 }
        | .error _ => { body := handler r, store := s, handlerCalls := 1 }
      else
        let entries := setEntry s.entries key ⟨stringifyRV (handler r), some (now + ttl)⟩
        { body := handler r, store := { s with entries := entries }, handlerCalls := 1 }
    | none =>
      let entries := setEntry s.entries key ⟨stringifyRV (handler r), some (now + ttl)⟩
      { body := handler r, store := { s with entries := entries }, handlerCalls := 1 }

-- ============================================================================
-- Composition helpers used by the theorems
-- ============================================================================

/-- The raw entry stored under `k` after a facade write (exposes the expiry
for TTL inspection); `none` if the write failed. -/
def entryAfter (r : Except RErr Store) (k : String) : Option REntry :=
  match r with
  | .ok s => s.entries.lookup k
  | .error _ => none

/-- Write-then-read composition for the dashboard-metrics category. -/
def writeThenReadMetrics (metrics : JVal) (s : Store) (now : Nat) :
    Except RErr (Option JVal) :=
  match cacheDashboardMetrics metrics s now with
  | .error e => .error e
  | .ok s => getDashboardMetrics s now

/-- Write-then-read composition for the active-alerts category. -/
def writeThenReadAlerts (alerts : List JVal) (s : Store) (now : Nat) :
    Except RErr JVal :=
  match cacheActiveAlerts alerts s now with
  | .error e => .error e
  | .ok s => getActiveAlerts s now

/-- Run a sequence of `checkRateLimit` calls for one identifier at the given
instants, collecting each call's allowed/not-allowed verdict. -/
def rateCalls (ip : String) (limit : Int) (s : Store) :
    List Nat → Except RErr (List Bool)
  | [] => .ok []
  | t :: ts =>
    match checkRateLimit ip limit s t with
    | .error e => .error e
    | .ok (b, s') =>
      match rateCalls ip limit s' ts with
      | .error e => .error e
      | .ok rest => .ok (b :: rest)

/-- The store a `checkRateLimit` call left behind (for expiry inspection);
falls back to the unreachable store if the call failed. -/
def rateStore (r : Except RErr (Bool × Store)) : Store :=
  match r with
  | .ok (_, s) => s
  | .error _ => downStore

instance {ε α : Type} [DecidableEq ε] [DecidableEq α] : DecidableEq (Except ε α) :=
  fun a b =>
    match a, b with
    | .ok x, .ok y =>
      if h : x = y then isTrue (by rw [h])
      else isFalse (fun hh => by cases hh; exact h rfl)
    | .ok _, .error _ => isFalse (fun h => Except.noConfusion h)
    | .error _, .ok _ => isFalse (fun h => Except.noConfusion h)
    | .error x, .error y =>
      if h : x = y then isTrue (by rw [h])
      else isFalse (fun hh => by cases hh; exact h rfl)

/-- `true` when the two character lists differ at some common index — a
sufficient (decidable) condition for `p ++ a ≠ q ++ b` whatever follows. -/
def listsClash : List Char → List Char → Bool
  | x :: xs, y :: ys => x != y || listsClash xs ys
  | _, _ => false

/-- The critical-alerts invariant over a transformed active-alerts list:
every element of its `severity === 'critical'` subset carries that severity
and belongs to the full list. -/
def criticalInvariant (active : List JVal) : Prop :=
  ∀ a ∈ active.filter isCriticalAlert,
    a.getField "severity" = .str "critical" ∧ a ∈ active

-- Concrete sample data used by the scenario theorems and witnesses.

/-- A store whose rate-limit counter for `198.51.100.9` already sits at the
limit (3), with its window expiring at instant 50. -/
def rlStoreC2 : Store :=
  { entries := [(CACHE_KEYS (.RATE_LIMIT "198.51.100.9"), ⟨.num 3, some 50⟩)],
    up := true }

/-- The store after one fresh allowed `checkRateLimit` call at instant 5. -/
def c3WitnessStore : Store := rateStore (checkRateLimit "203.0.113.77" 3 emptyUp 5)

/-- A fully-populated metrics object (all four fields truthy). -/
def metricsSample : JVal :=
  .obj [("activeThreats", .num 5), ("revenueAtRisk", .num 1),
        ("networkHealth", .num 2), ("slaStatus", .num 3)]

/-- A metrics object whose four fields are the legitimate-but-falsy value 0. -/
def zeroMetrics : JVal :=
  .obj [("activeThreats", .num 0), ("revenueAtRisk", .num 0),
        ("networkHealth", .num 0), ("slaStatus", .num 0)]

/-- Two alerts in the caller's (snake_case) shape: one critical, one low. -/
def alertsSample : List JVal :=
  [.obj [("id", .str "1"), ("alert_number", .str "FR-2024-001"),
         ("severity", .str "critical")],
   .obj [("id", .str "2"), ("alert_number", .str "SEC-2024-047"),
         ("severity", .str "low")]]

/-- A reachable store whose dashboard-metrics key holds a malformed
(non-JSON, non-empty) payload. -/
def badPayloadStore : Store :=
  { entries := [(CACHE_KEYS .DASHBOARD_METRICS, ⟨.raw "not json", some 100⟩)],
    up := true }

/-- A sample request and handler for the middleware scenarios. -/
def reqSample : Req := { method := "GET", originalUrl := "/api/dashboard?window=1h" }

/-- A constant downstream handler producing a JSON-normal body. -/
def handlerSample : Req → JVal :=
  fun _ => .obj [("ok", .bool true), ("payload", .arr [.num 1, .num 2])]

-- ============================================================================
-- Helper lemmas
-- ============================================================================

theorem string_append_left_cancel {p a b : String} (h : p ++ a = p ++ b) : a = b := by
  apply String.ext
  have hd := congrArg String.data h
  simp only [String.data_append] at hd
  exact List.append_cancel_left hd

theorem listsClash_ne_append (p q a b : List Char) (h : listsClash p q = true) :
    p ++ a ≠ q ++ b := by
  induction p generalizing q with
  | nil => cases q <;> simp [listsClash] at h
  | cons x xs ih =>
    cases q with
    | nil => simp [listsClash] at h
    | cons y ys =>
      simp only [listsClash, Bool.or_eq_true, bne_iff_ne, ne_eq] at h
      intro heq
      rw [List.cons_append, List.cons_append] at heq
      injection heq with h1 h2
      rcases h with h | h
      · exact h h1
      · exact ih ys h h2

theorem strClash_append_append (p q a b : String) (h : listsClash p.data q.data = true) :
    p ++ a ≠ q ++ b := by
  intro heq
  have hd := congrArg String.data heq
  simp only [String.data_append] at hd
  exact listsClash_ne_append p.data q.data a.data b.data h hd

theorem strClash_append_const (p c a : String) (h : listsClash p.data c.data = true) :
    p ++ a ≠ c := by
  intro heq
  have hd := congrArg String.data heq
  simp only [String.data_append] at hd
  have hd2 : p.data ++ a.data = c.data ++ [] := by simp [hd]
  exact listsClash_ne_append p.data c.data a.data [] h hd2

theorem strClash_const_append (c p a : String) (h : listsClash c.data p.data = true) :
    c ≠ p ++ a := by
  intro heq
  have hd := congrArg String.data heq
  simp only [String.data_append] at hd
  have hd2 : c.data ++ [] = p.data ++ a.data := by simp [hd]
  exact listsClash_ne_append c.data p.data [] a.data h hd2

theorem lookup_setEntry_self (es : List (String × REntry)) (k : String) (e : REntry) :
    (setEntry es k e).lookup k = some e := by
  simp [setEntry, List.lookup_cons]

theorem lookup_filter_ne (es : List (String × REntry)) (k k' : String) (h : k' ≠ k) :
    (es.filter (fun p => p.1 != k)).lookup k' = es.lookup k' := by
  induction es with
  | nil => rfl
  | cons hd tl ih =>
    obtain ⟨a, b⟩ := hd
    by_cases hk : a = k
    · subst hk
      have hb : (k' == a) = false := by simpa using h
      simp [List.filter_cons, List.lookup_cons, ih, hb]
    · simp [List.filter_cons, hk, List.lookup_cons, ih]

theorem lookup_setEntry_ne (es : List (String × REntry)) (k k' : String) (e : REntry)
    (h : k' ≠ k) : (setEntry es k e).lookup k' = es.lookup k' := by
  have hb : (k' == k) = false := by simpa using h
  simp [setEntry, List.lookup_cons, hb, lookup_filter_ne es k k' h]

theorem jnorm_ne_undef (v : JVal) : jnorm v ≠ .undefined := by
  cases v <;> simp [jnorm]

mutual

theorem jnorm_idem : ∀ v : JVal, jnorm (jnorm v) = jnorm v
  | .str _ => rfl
  | .num _ => rfl
  | .bool _ => rfl
  | .null => rfl
  | .undefined => rfl
  | .arr xs => by rw [jnorm, jnorm, jnormArr_idem xs]
  | .obj fs => by rw [jnorm, jnorm, jnormObj_idem fs]

theorem jnormArr_idem : ∀ xs : List JVal, jnormArr (jnormArr xs) = jnormArr xs
  | [] => rfl
  | x :: xs => by rw [jnormArr, jnormArr, jnorm_idem x, jnormArr_idem xs]

theorem jnormObj_idem : ∀ fs : List (String × JVal), jnormObj (jnormObj fs) = jnormObj fs
  | [] => rfl
  | (k, v) :: fs => by
    by_cases h : v = .undefined
    · rw [jnormObj, if_pos h, jnormObj_idem fs]
    · rw [jnormObj, if_neg h, jnormObj, if_neg (jnorm_ne_undef v), jnorm_idem v,
        jnormObj_idem fs]

end

theorem multiIncrExpire_expiry (s : Store) (now : Nat) (k : String) (ttl : Nat) (s' : Store)
    (h : multiIncrExpire s now k ttl = .ok s') :
    (s'.entries.lookup k).map REntry.expiry = some (some (now + ttl)) := by
  by_cases hup : s.up = true
  · simp only [multiIncrExpire, hup, if_true] at h
    set entries1 := (match lookupLive s.entries now k with
      | none => setEntry s.entries k ⟨.num 1, none⟩
      | some (.num n) =>
        match s.entries.lookup k with
        | some e => setEntry s.entries k ⟨.num (n + 1), e.expiry⟩
        | none => setEntry s.entries k ⟨.num (n + 1), none⟩
      | some _ => s.entries) with hentries1
    have hex : ∃ e, entries1.lookup k = some e := by
      rw [hentries1]
      unfold lookupLive
      rcases he : s.entries.lookup k with _ | e
      · exact ⟨_, lookup_setEntry_self _ _ _⟩
      · rcases e with ⟨v, ex⟩
        cases ex with
        | none =>
          cases v <;> simp [he] <;> exact ⟨_, lookup_setEntry_self _ _ _⟩
        | some t =>
          by_cases ht : now < t
          · cases v <;> simp [he, ht] <;> first
              | exact ⟨_, lookup_setEntry_self _ _ _⟩
              | exact ⟨_, he⟩
          · simp [he, ht]
            exact ⟨_, lookup_setEntry_self _ _ _⟩
    obtain ⟨e, he⟩ := hex
    rw [he] at h
    cases h
    simp [lookup_setEntry_self]
  · simp only [multiIncrExpire, hup] at h
    simp at hup
    simp [hup] at h

-- ============================================================================
-- Claims
-- ============================================================================

/-- C1: for one identifier with limit 3 and a fresh window, the first three
`checkRateLimit` calls return allowed, the fourth returns not-allowed, and a
call after the counter's window has lapsed returns allowed again. -/
theorem C1_rate_limit_scenario (ip : String) :
    rateCalls ip 3 emptyUp [0, 5, 10, 15, 100] = .ok [true, true, true, false, true] := by
  simp [rateCalls, checkRateLimit, rget, lookupLive, multiIncrExpire, setEntry, emptyUp,
    parseIntGE, RVal.truthy, TTL.RATE_LIMIT, List.lookup_cons, beq_self_eq_true,
    List.filter_cons, bne_self_eq_false]

/-- C2 counterexample: with the counter at the limit (3), the rejected call
returns not-allowed but leaves the store — and hence the stored count —
untouched, not incremented to 4. -/
theorem C2_rejected_call_cex :
    checkRateLimit "198.51.100.9" 3 rlStoreC2 0 = .ok (false, rlStoreC2) ∧
    (rlStoreC2.entries.lookup (CACHE_KEYS (.RATE_LIMIT "198.51.100.9"))).map REntry.val =
      some (.num 3) := by decide

/-- C2 amended: whenever the identifier's counter is present (live) and at or
over the limit, `checkRateLimit` reports not-allowed and returns the store
unchanged — rejected calls do not increment the counter. -/
theorem C2_rejected_call_no_increment (ip : String) (limit : Int) (s : Store) (now : Nat)
    (n : Int) (hup : s.up = true)
    (hcur : lookupLive s.entries now (CACHE_KEYS (.RATE_LIMIT ip)) = some (.num n))
    (hge : limit ≤ n) :
    checkRateLimit ip limit s now = .ok (false, s) := by
  simp [checkRateLimit, rget, hup, hcur, parseIntGE, RVal.truthy, hge]

/-- C2 witness: the amended theorem applied to the concrete at-limit store. -/
theorem C2_rejected_call_no_increment_witness :
    rlStoreC2.up = true ∧
    lookupLive rlStoreC2.entries 0 (CACHE_KEYS (.RATE_LIMIT "198.51.100.9")) =
      some (.num 3) ∧
    (3 : Int) ≤ 3 ∧
    checkRateLimit "198.51.100.9" 3 rlStoreC2 0 = .ok (false, rlStoreC2) :=
  ⟨by decide, by decide, by decide,
    C2_rejected_call_no_increment "198.51.100.9" 3 rlStoreC2 0 3 (by decide) (by decide)
      (by decide)⟩

/-- C3 counterexample: the `incr`+`expire` transaction runs `EXPIRE` on every
allowed call, not only on the one that created the key — the first call at
instant 0 sets the expiry to 60, and the second call at instant 10 (well
inside the same window) moves it to 70 instead of leaving it at 60. -/
theorem C3_expire_reset_cex :
    (rateStore (checkRateLimit "203.0.113.5" 3 emptyUp 0)).entries.lookup
        (CACHE_KEYS (.RATE_LIMIT "203.0.113.5")) = some ⟨.num 1, some 60⟩ ∧
    (rateStore (checkRateLimit "203.0.113.5" 3
        (rateStore (checkRateLimit "203.0.113.5" 3 emptyUp 0)) 10)).entries.lookup
        (CACHE_KEYS (.RATE_LIMIT "203.0.113.5")) = some ⟨.num 2, some 70⟩ := by decide

/-- C3 amended: every allowed `checkRateLimit` call attaches the expiry anew —
after any allowed call the counter's expiry is exactly `now + TTL.RATE_LIMIT`,
so continued allowed traffic extends the window rather than leaving the
original expiry in place. -/
theorem C3_expiry_reset_every_allowed_call (ip : String) (limit : Int) (s s' : Store)
    (now : Nat) (h : checkRateLimit ip limit s now = .ok (true, s')) :
    (s'.entries.lookup (CACHE_KEYS (.RATE_LIMIT ip))).map REntry.expiry =
      some (some (now + TTL.RATE_LIMIT)) := by
  simp only [checkRateLimit] at h
  rcases hg : rget s now (CACHE_KEYS (.RATE_LIMIT ip)) with e | cur
  · rw [hg] at h
    simp at h
  · rw [hg] at h
    rcases cur with _ | v
    · rcases hm : multiIncrExpire s now (CACHE_KEYS (.RATE_LIMIT ip)) TTL.RATE_LIMIT
        with e | s2
      · rw [hm] at h
        simp at h
      · rw [hm] at h
        simp at h
        subst h
        exact multiIncrExpire_expiry s now _ TTL.RATE_LIMIT s2 hm
    · by_cases hc : (v.truthy && parseIntGE v limit) = true
      · simp [hc] at h
      · rcases hm : multiIncrExpire s now (CACHE_KEYS (.RATE_LIMIT ip)) TTL.RATE_LIMIT
          with e | s2
        · rw [hm] at h
          simp [hc] at h
        · rw [hm] at h
          simp [hc] at h
          subst h
          exact multiIncrExpire_expiry s now _ TTL.RATE_LIMIT s2 hm

/-- C3 witness: a concrete fresh allowed call at instant 5 leaves the counter
expiring at `5 + TTL.RATE_LIMIT`. -/
theorem C3_expiry_reset_witness :
    checkRateLimit "203.0.113.77" 3 emptyUp 5 = .ok (true, c3WitnessStore) ∧
    (c3WitnessStore.entries.lookup (CACHE_KEYS (.RATE_LIMIT "203.0.113.77"))).map
      REntry.expiry = some (some (5 + TTL.RATE_LIMIT)) :=
  ⟨by decide,
    C3_expiry_reset_every_allowed_call "203.0.113.77" 3 emptyUp c3WitnessStore 5 (by decide)⟩

set_option maxHeartbeats 2000000 in
/-- C4: key building is deterministic (it is a pure function of the category
and id) and injective over the whole (category, id) domain — no two distinct
`CKey` values, across or within categories and for any id strings, produce
the same key string. -/
theorem C4_cache_keys_injective (k1 k2 : CKey) (h : CACHE_KEYS k1 = CACHE_KEYS k2) :
    k1 = k2 := by
  cases k1 <;> cases k2 <;> simp only [CACHE_KEYS] at h <;>
    first
      | rfl
      | (exact absurd h (by decide))
      | (rw [string_append_left_cancel h])
      | (exact absurd h (strClash_append_append _ _ _ _ (by decide)))
      | (exact absurd h (strClash_append_const _ _ _ (by decide)))
      | (exact absurd h (strClash_const_append _ _ _ (by decide)))

/-- C4 witness: injectivity applied to two syntactically distinct inputs whose
keys evaluate to the same string. -/
theorem C4_cache_keys_injective_witness :
    CACHE_KEYS (CKey.ALERT_DETAILS ("20" ++ "24")) = CACHE_KEYS (CKey.ALERT_DETAILS "2024") ∧
    CKey.ALERT_DETAILS ("20" ++ "24") = CKey.ALERT_DETAILS "2024" :=
  ⟨by decide, C4_cache_keys_injective _ _ (by decide)⟩

/-- C5: after any write of the active-alerts list, the critical-alerts key
holds exactly the `severity === 'critical'` subset of the transformed list
with the real-time TTL (30s), the active-alerts key holds the full
transformed list with the alerts TTL (300s), and every element of the
critical subset has severity "critical" and appears in the active list. -/
theorem C5_critical_alerts_invariant (alerts : List JVal) (s : Store) (now : Nat)
    (hup : s.up = true) :
    entryAfter (cacheActiveAlerts alerts s now) (CACHE_KEYS .CRITICAL_ALERTS) =
      some ⟨stringifyRV (.arr ((alerts.map alertTransform).filter isCriticalAlert)),
            some (now + TTL.REAL_TIME)⟩ ∧
    entryAfter (cacheActiveAlerts alerts s now) (CACHE_KEYS .ACTIVE_ALERTS) =
      some ⟨stringifyRV (.arr (alerts.map alertTransform)), some (now + TTL.ALERTS)⟩ ∧
    criticalInvariant (alerts.map alertTransform) := by
  refine ⟨?_, ?_, ?_⟩
  · simp only [cacheActiveAlerts, rsetex, hup, if_true, entryAfter]
    rw [lookup_setEntry_self]
  · simp only [cacheActiveAlerts, rsetex, hup, if_true, entryAfter]
    rw [lookup_setEntry_ne _ _ _ _ (by decide), lookup_setEntry_self]
  · intro a ha
    have hmem := List.mem_filter.1 ha
    refine ⟨?_, hmem.1⟩
    have hcrit := hmem.2
    unfold isCriticalAlert at hcrit
    rcases hf : a.getField "severity" with sev | q | b | _ | _ | xs | fs <;>
        rw [hf] at hcrit <;> simp at hcrit
    rw [hcrit]

/-- C5 witness: the invariant instantiated at a concrete two-alert list (one
critical, one low) written to the fresh store at instant 0. -/
theorem C5_critical_alerts_invariant_witness :
    emptyUp.up = true ∧
    entryAfter (cacheActiveAlerts alertsSample emptyUp 0) (CACHE_KEYS .CRITICAL_ALERTS) =
      some ⟨stringifyRV (.arr ((alertsSample.map alertTransform).filter isCriticalAlert)),
            some (0 + TTL.REAL_TIME)⟩ ∧
    criticalInvariant (alertsSample.map alertTransform) :=
  ⟨rfl, (C5_critical_alerts_invariant alertsSample emptyUp 0 rfl).1,
    (C5_critical_alerts_invariant alertsSample emptyUp 0 rfl).2.2⟩

/-- C6 counterexample: a fully-truthy metrics object does not read back
structurally equal to itself — the stored object carries an added
`lastUpdated` timestamp field. -/
theorem C6_round_trip_cex :
    writeThenReadMetrics metricsSample emptyUp 0 ≠ .ok (some metricsSample) := by decide

/-- C6 amended: write-then-read returns the serialization round-trip of the
documented fixed shape transform of the input, not the input itself — for
dashboard metrics the `||`-defaulted fields plus an added `lastUpdated`
timestamp, and for active alerts the per-alert projection onto the nine
renamed fields. -/
theorem C6_round_trip_transform (m : JVal) (alerts : List JVal) (s : Store) (now : Nat)
    (hup : s.up = true) :
    writeThenReadMetrics m s now = .ok (some (jnorm (dashboardData m now))) ∧
    writeThenReadAlerts alerts s now = .ok (jnorm (.arr (alerts.map alertTransform))) := by
  constructor
  · have hlt : now < now + TTL.DASHBOARD := by unfold TTL.DASHBOARD; omega
    simp only [writeThenReadMetrics, cacheDashboardMetrics, rsetex, hup, if_true,
      getDashboardMetrics, rget, lookupLive]
    rw [lookup_setEntry_ne _ _ _ _ (by decide), lookup_setEntry_ne _ _ _ _ (by decide),
      lookup_setEntry_ne _ _ _ _ (by decide), lookup_setEntry_ne _ _ _ _ (by decide),
      lookup_setEntry_self]
    simp [hlt, stringifyRV, RVal.truthy, RVal.parse]
  · have hlt : now < now + TTL.ALERTS := by unfold TTL.ALERTS; omega
    simp only [writeThenReadAlerts, cacheActiveAlerts, rsetex, hup, if_true,
      getActiveAlerts, rget, lookupLive]
    rw [lookup_setEntry_ne _ _ _ _ (by decide), lookup_setEntry_self]
    simp [hlt, stringifyRV, RVal.truthy, RVal.parse]

/-- C6 witness: the amended round-trip at the concrete metrics object and
alert list. -/
theorem C6_round_trip_transform_witness :
    emptyUp.up = true ∧
    writeThenReadMetrics metricsSample emptyUp 0 =
      .ok (some (jnorm (dashboardData metricsSample 0))) ∧
    writeThenReadAlerts alertsSample emptyUp 0 =
      .ok (jnorm (.arr (alertsSample.map alertTransform))) :=
  ⟨rfl, (C6_round_trip_transform metricsSample alertsSample emptyUp 0 rfl).1,
    (C6_round_trip_transform metricsSample alertsSample emptyUp 0 rfl).2⟩

/-- C7 counterexample: on an unreachable backend every facade read and
`checkRateLimit` surface the backend error instead of returning the absent
value / allowed — there is no try/catch on those paths. -/
theorem C7_fail_open_cex :
    getActiveAlerts downStore 0 = .error .backendDown ∧
    getCriticalAlerts downStore 0 = .error .backendDown ∧
    getDashboardMetrics downStore 0 = .error .backendDown ∧
    checkRateLimit "198.51.100.1" 1000 downStore 0 = .error .backendDown := by decide

/-- C7 amended: on backend timeout or connectivity failure the facade reads
and `checkRateLimit` propagate the rejected promise to the caller (no
fail-open); only the response-cache middleware catches the error and falls
through to the handler, forwarding its body with nothing cached. -/
theorem C7_error_propagation (s : Store) (now : Nat) (ip : String) (limit : Int)
    (ttl : Nat) (handler : Req → JVal) (r : Req) (hdown : s.up = false) :
    getActiveAlerts s now = .error .backendDown ∧
    getCriticalAlerts s now = .error .backendDown ∧
    getDashboardMetrics s now = .error .backendDown ∧
    checkRateLimit ip limit s now = .error .backendDown ∧
    cacheMiddleware ttl handler r s now =
      { body := handler r, store := s, handlerCalls := 1 } := by
  simp [getActiveAlerts, getCriticalAlerts, getDashboardMetrics, checkRateLimit,
    cacheMiddleware, rget, hdown]

/-- C7 witness: the amended behaviour at the concrete unreachable store. -/
theorem C7_error_propagation_witness :
    downStore.up = false ∧
    getActiveAlerts downStore 3 = .error .backendDown ∧
    cacheMiddleware 60 handlerSample reqSample downStore 3 =
      { body := handlerSample reqSample, store := downStore, handlerCalls := 1 } :=
  ⟨rfl, (C7_error_propagation downStore 3 "x" 1000 60 handlerSample reqSample rfl).1,
    (C7_error_propagation downStore 3 "x" 1000 60 handlerSample reqSample rfl).2.2.2.2⟩

/-- C8 counterexample: a stored malformed payload makes the read throw
(`JSON.parse` error propagates) — it does not return the cache-miss value
`null`, which a genuine miss does return. -/
theorem C8_malformed_payload_cex :
    getDashboardMetrics badPayloadStore 0 = .error .parseError ∧
    getDashboardMetrics emptyUp 0 = .ok none := by decide

/-- C8 amended: for every stored non-empty payload that fails to deserialize,
the facade read method throws the parse error instead of returning the
"not present" value (there is no try/catch around `JSON.parse`). -/
theorem C8_malformed_payload_throws (s : Store) (now : Nat) (c : String)
    (hup : s.up = true)
    (hraw : lookupLive s.entries now (CACHE_KEYS .DASHBOARD_METRICS) = some (.raw c))
    (hne : c ≠ "") :
    getDashboardMetrics s now = .error .parseError := by
  simp [getDashboardMetrics, rget, hup, hraw, RVal.truthy, hne, RVal.parse]

/-- C8 witness: the amended behaviour at the concrete malformed-payload store. -/
theorem C8_malformed_payload_throws_witness :
    badPayloadStore.up = true ∧
    lookupLive badPayloadStore.entries 0 (CACHE_KEYS .DASHBOARD_METRICS) =
      some (.raw "not json") ∧
    ("not json" : String) ≠ "" ∧
    getDashboardMetrics badPayloadStore 0 = .error .parseError :=
  ⟨rfl, by decide, by decide,
    C8_malformed_payload_throws badPayloadStore 0 "not json" rfl (by decide) (by decide)⟩

/-- C9: the middleware keys on method and full path; a miss invokes the
handler exactly once, stores its body under the key with the configured TTL,
and forwards the body unchanged; a hit within the TTL returns the stored body
without invoking the handler, and the two consecutive responses serialize to
the same bytes. The source's default TTL is the dashboard tier (60s). -/
theorem C9_middleware_read_through (ttl : Nat) (handler : Req → JVal) (r : Req)
    (s : Store) (t1 t2 : Nat) (hup : s.up = true)
    (hmiss : lookupLive s.entries t1 (mwKey r) = none)
    (hin : t2 < t1 + ttl) :
    mwKey r = "cybercell:http:" ++ r.method ++ ":" ++ r.originalUrl ∧
    (cacheMiddleware ttl handler r s t1).handlerCalls = 1 ∧
    (cacheMiddleware ttl handler r s t1).body = handler r ∧
    (cacheMiddleware ttl handler r s t1).store.entries.lookup (mwKey r) =
      some ⟨stringifyRV (handler r), some (t1 + ttl)⟩ ∧
    (cacheMiddleware ttl handler r (cacheMiddleware ttl handler r s t1).store t2).handlerCalls = 0 ∧
    (cacheMiddleware ttl handler r (cacheMiddleware ttl handler r s t1).store t2).body =
      jnorm (handler r) ∧
    stringifyRV (cacheMiddleware ttl handler r (cacheMiddleware ttl handler r s t1).store t2).body =
      stringifyRV ((cacheMiddleware ttl handler r s t1).body) ∧
    TTL.DASHBOARD = 60 := by
  have hfirst : cacheMiddleware ttl handler r s t1 =
      ⟨handler r,
        { s with entries := setEntry s.entries (mwKey r) ⟨stringifyRV (handler r), some (t1 + ttl)⟩ },
        1⟩ := by
    simp [cacheMiddleware, rget, hup, hmiss]
  have hsecond : cacheMiddleware ttl handler r (cacheMiddleware ttl handler r s t1).store t2 =
      { body := jnorm (handler r),
        store := (cacheMiddleware ttl handler r s t1).store,
        handlerCalls := 0 } := by
    rw [hfirst]
    simp [cacheMiddleware, rget, hup, lookupLive, lookup_setEntry_self, hin,
      RVal.truthy, RVal.parse, stringifyRV]
  refine ⟨rfl, ?_, ?_, ?_, ?_, ?_, ?_, rfl⟩
  · rw [hfirst]
  · rw [hfirst]
  · rw [hfirst]
    exact lookup_setEntry_self _ _ _
  · rw [hsecond]
  · rw [hsecond]
  · rw [hsecond, hfirst]
    simp [stringifyRV, jnorm_idem]

/-- C9 witness: the read-through scenario at a concrete request, handler and
fresh store, with the second request 30s into a 60s TTL. -/
theorem C9_middleware_read_through_witness :
    emptyUp.up = true ∧
    lookupLive emptyUp.entries 0 (mwKey reqSample) = none ∧
    (30 : Nat) < 0 + 60 ∧
    (cacheMiddleware 60 handlerSample reqSample emptyUp 0).handlerCalls = 1 ∧
    (cacheMiddleware 60 handlerSample reqSample
      (cacheMiddleware 60 handlerSample reqSample emptyUp 0).store 30).handlerCalls = 0 :=
  ⟨rfl, rfl, by decide,
    (C9_middleware_read_through 60 handlerSample reqSample emptyUp 0 30 rfl rfl
      (by decide)).2.1,
    (C9_middleware_read_through 60 handlerSample reqSample emptyUp 0 30 rfl rfl
      (by decide)).2.2.2.2.1⟩

/-- C10: `cacheDashboardMetrics` stores the `||`-defaulted object — whenever a
metric field is falsy (including the legitimate value 0) the fixed demo
default (23, 127450, 94.2, 99.1 respectively) is stored in its place. -/
theorem C10_falsy_metric_defaults (m : JVal) (s : Store) (now : Nat) (hup : s.up = true) :
    entryAfter (cacheDashboardMetrics m s now) (CACHE_KEYS .DASHBOARD_METRICS) =
      some ⟨stringifyRV (dashboardData m now), some (now + TTL.DASHBOARD)⟩ ∧
    (jtruthy (m.getField "activeThreats") = false →
      (dashboardData m now).getField "activeThreats" = .num 23) ∧
    (jtruthy (m.getField "revenueAtRisk") = false →
      (dashboardData m now).getField "revenueAtRisk" = .num 127450) ∧
    (jtruthy (m.getField "networkHealth") = false →
      (dashboardData m now).getField "networkHealth" = .num 94.2) ∧
    (jtruthy (m.getField "slaStatus") = false →
      (dashboardData m now).getField "slaStatus" = .num 99.1) := by
  refine ⟨?_, ?_, ?_, ?_, ?_⟩
  · simp only [cacheDashboardMetrics, rsetex, hup, if_true, entryAfter]
    rw [lookup_setEntry_ne _ _ _ _ (by decide), lookup_setEntry_ne _ _ _ _ (by decide),
      lookup_setEntry_ne _ _ _ _ (by decide), lookup_setEntry_ne _ _ _ _ (by decide),
      lookup_setEntry_self]
  · intro hf
    show jsOr (m.getField "activeThreats") (.num 23) = .num 23
    simp [jsOr, hf]
  · intro hf
    show jsOr (m.getField "revenueAtRisk") (.num 127450) = .num 127450
    simp [jsOr, hf]
  · intro hf
    show jsOr (m.getField "networkHealth") (.num 94.2) = .num 94.2
    simp [jsOr, hf]
  · intro hf
    show jsOr (m.getField "slaStatus") (.num 99.1) = .num 99.1
    simp [jsOr, hf]

/-- C10 witness: all four fields supplied as the falsy value 0 are replaced by
the demo defaults in the stored object. -/
theorem C10_falsy_metric_defaults_witness :
    emptyUp.up = true ∧
    jtruthy (JVal.getField zeroMetrics "activeThreats") = false ∧
    (dashboardData zeroMetrics 0).getField "activeThreats" = .num 23 ∧
    (dashboardData zeroMetrics 0).getField "slaStatus" = .num 99.1 :=
  ⟨rfl, by decide,
    (C10_falsy_metric_defaults zeroMetrics emptyUp 0 rfl).2.1 (by decide),
    (C10_falsy_metric_defaults zeroMetrics emptyUp 0 rfl).2.2.2.2 (by decide)⟩

end CyberCell
